import Mathlib

/-!
Shallow embedding of `src/backend/main.py` (AVG Anonimiseer backend):
the Mistral retry executor `call_mistral_with_retry`, the text endpoint
`analyze_text` (`/api/analyze`) and the image endpoint `analyze_image`
(`/api/analyze-image`).

External collaborators are modelled as oracles:
* the HTTP transport (`httpx`) is an oracle `provider : Nat → ProviderResp`
  giving, per attempt index, what `client.post` + `raise_for_status` +
  `response.json()` produce for that attempt;
* the standard-library JSON parser `json.loads` is an oracle
  `loads : String → Option Json` (`none` models a raised
  `json.JSONDecodeError`);
* the standard-library regex engine `re.finditer` is an oracle
  `finditer : String → String → List String` mapping a pattern and the
  scanned text to the ordered list of matched substrings (`match.group(0)`).

Everything defined by the repository itself (constants, retry loop,
payload construction, truncation, merging, exception routing) is
translated directly from the source.
-/

/-- JSON values, as produced by `response.json()` / `json.loads`.
Numbers are modelled as rationals (the Python literals in play are
only compared for equality, never computed with). -/
inductive Json where
  | null : Json
  | bool (b : Bool) : Json
  | num (q : ℚ) : Json
  | str (s : String) : Json
  | arr (elems : List Json) : Json
  | obj (fields : List (String × Json)) : Json

/-- The Python exceptions that the backend can raise or catch.
`raisedNone` models `raise None` (a `TypeError`), reachable only if the
retry loop body never executes. -/
inductive PyErr where
  | httpStatusError (status : Nat) (body : String) : PyErr
  | timeoutException : PyErr
  | raisedNone : PyErr
  | keyError (key : String) : PyErr
  | indexError : PyErr
  | typeError (msg : String) : PyErr
  | jsonDecodeError : PyErr
  | attributeError (msg : String) : PyErr
deriving DecidableEq

/-- Models Python `str(e)` for the exceptions above (used by the
`except Exception as e` handler, `HTTPException(500, str(e))`).
The messages are abbreviations of CPython/httpx text; what matters is
that `httpx.HTTPStatusError`'s message is built from the status and the
URL, never from the response body. -/
def pyStr : PyErr → String
  | .httpStatusError status _ => "HTTP status error " ++ toString status
  | .timeoutException => "Request timed out"
  | .raisedNone => "exceptions must derive from BaseException"
  | .keyError key => "KeyError: " ++ key
  | .indexError => "list index out of range"
  | .typeError msg => msg
  | .jsonDecodeError => "Expecting value: line 1 column 1 (char 0)"
  | .attributeError msg => msg

/-- What one `client.post` + `raise_for_status()` + `response.json()`
round produces, as seen by the retry loop: a parsed JSON body on a 2xx
response, an `httpx.HTTPStatusError` with the response's status and
body on a non-2xx response, or an `httpx.TimeoutException`. -/
inductive ProviderResp where
  | ok (data : Json) : ProviderResp
  | httpStatus (status : Nat) (body : String) : ProviderResp
  | timeout : ProviderResp

/-- `MAX_RETRIES = 3` (main.py line 32). -/
def MAX_RETRIES : Nat := 3

/-- `RETRY_DELAYS = [1, 2, 4]` (main.py line 33). -/
def RETRY_DELAYS : List Nat := [1, 2, 4]

/-- The observable behaviour of one `call_mistral_with_retry` run:
the payloads actually posted (one per attempt, in order), the
`asyncio.sleep` delays performed between attempts, and the outcome
(`.ok` = returned JSON, `.error` = raised exception). -/
structure CallResult (β : Type) where
  sentPayloads : List β
  sleeps : List Nat
  result : Except PyErr Json

/-- The body of the `for attempt in range(MAX_RETRIES)` loop of
`call_mistral_with_retry` (main.py lines 40-75), by recursion on the
remaining number of iterations (`fuel`).  On HTTP 429 with attempts
remaining it sleeps `RETRY_DELAYS[attempt]` and continues; on any other
`HTTPStatusError` it re-raises immediately; on timeout with attempts
remaining it sleeps and continues; when the range is exhausted it
executes `raise last_error`. -/
def callMistralGo {β : Type} (provider : Nat → ProviderResp) (payload : β) :
    Nat → Nat → Option PyErr → CallResult β
  | _attempt, 0, lastError => ⟨[], [], .error (lastError.getD .raisedNone)⟩
  | attempt, fuel + 1, _lastError =>
    match provider attempt with
    | .ok data => ⟨[payload], [], .ok data⟩
    | .httpStatus status body =>
      if status = 429 ∧ attempt < MAX_RETRIES - 1 then
        let rest := callMistralGo provider payload (attempt + 1) fuel
          (some (.httpStatusError status body))
        ⟨payload :: rest.sentPayloads, RETRY_DELAYS.getD attempt 0 :: rest.sleeps, rest.result⟩
      else ⟨[payload], [], .error (.httpStatusError status body)⟩
    | .timeout =>
      if attempt < MAX_RETRIES - 1 then
        let rest := callMistralGo provider payload (attempt + 1) fuel
          (some .timeoutException)
        ⟨payload :: rest.sentPayloads, RETRY_DELAYS.getD attempt 0 :: rest.sleeps, rest.result⟩
      else ⟨[payload], [], .error .timeoutException⟩

/-- `call_mistral_with_retry(client, payload, timeout)` (main.py lines
36-75).  The `timeout` argument is forwarded to `client.post` and so is
part of the transport oracle's behaviour; the retry logic never reads
it. -/
def call_mistral_with_retry {β : Type} (provider : Nat → ProviderResp) (payload : β)
    (_timeout : ℚ) : CallResult β :=
  callMistralGo provider payload 0 MAX_RETRIES none

/-- `MISTRAL_API_URL` (main.py line 28). -/
def MISTRAL_API_URL : String := "https://api.mistral.ai/v1/chat/completions"

/-- `MODEL = "mistral-large-latest"` (main.py line 29). -/
def MODEL : String := "mistral-large-latest"

/-- Python truthiness of `MISTRAL_API_KEY = os.getenv("MISTRAL_API_KEY")`:
`None` and the empty string are falsy, any other string is truthy. -/
def strTruthy : Option String → Bool
  | none => false
  | some s => !(s == "")

/-- One element of the `messages` array of a chat-completion payload. -/
structure ChatMessage where
  role : String
  content : String

/-- The chat-completion payload built by `analyze_text` (main.py lines
150-158); `response_format = {"type": "json_object"}` is modelled by its
`type` string. -/
structure MistralPayload where
  model : String
  messages : List ChatMessage
  responseFormat : String
  temperature : ℚ

/-- The system prompt of `/api/analyze` (main.py lines 126-146). -/
def system_prompt : String :=
  "\nYou are a GDPR compliance expert specializing in Dutch personal data anonymization.\nYour task is to analyze the provided text and identify Personally Identifiable Information (PII) that needs to be redacted.\n\nFocus specifically on:\n1. Names of PERSONS (exclude company names like BV, VOF, Stichting, Gemeente).\n2. Phone numbers (mobile and landline).\n3. Email addresses.\n4. BSN (Burgerservicenummer).\n5. IBAN bank accounts.\n\nDo NOT flag:\n- Company names, government bodies, or job titles.\n- Dates or generalized locations (like city names alone).\n\nReturn a JSON object with a single key \"found\" containing an array of objects.\nEach object must have:\n- \"type\": One of [\"name\", \"phone\", \"email\", \"bsn\", \"iban\"]\n- \"value\": The exact substring found in the text.\n- \"confidence\": Number between 0 and 1.\n    "

/-- Request body of `POST /api/analyze` (main.py lines 77-78). -/
structure AnalyzeRequest where
  text : String

/-- The fixed signal-word regex patterns (main.py lines 105-111),
kept as the literal pattern strings handed to `re.finditer`. -/
def signal_patterns : List String :=
  ["\\b(de\\s+heer)\\b", "\\b(dhr\\.?)\\b",
   "\\b(mevrouw)\\b", "\\b(mw\\.?)\\b",
   "\\b(veldwerker)\\b", "\\b(boormeester)\\b",
   "\\b(projectleider)\\b", "\\b(adviseur)\\b",
   "\\b(contactpersoon)\\b"]

/-- The dict appended per regex match (main.py lines 116-120). -/
def indicatorFinding (matched : String) : Json :=
  .obj [("type", .str "indicator"), ("value", .str matched), ("confidence", .num 1)]

/-- The regex-detection loop of `analyze_text` (main.py lines 100-120):
for each pattern in order, every `re.finditer` match on the **full**
request text contributes one indicator finding.  The regex engine
itself is the oracle `finditer`. -/
def regexScan (finditer : String → String → List String) (text : String) : List Json :=
  signal_patterns.flatMap fun pattern => (finditer pattern text).map indicatorFinding

/-- The canned mock response of `/api/analyze` when no API key is
configured (main.py lines 91-98). -/
def mock_results : List Json :=
  [.obj [("type", .str "name"), ("value", .str "Jan Jansen"), ("confidence", .num (95/100))],
   .obj [("type", .str "email"), ("value", .str "test@example.com"), ("confidence", .num (99/100))],
   .obj [("type", .str "iban"), ("value", .str "NL99BANK0123456789"), ("confidence", .num (98/100))],
   .obj [("type", .str "iban"), ("value", .str "NL99BANK0123456789"), ("confidence", .num (98/100))],
   .obj [("type", .str "phone"), ("value", .str "06-12345678"), ("confidence", .num (90/100))],
   .obj [("type", .str "indicator"), ("value", .str "De heer"), ("confidence", .num 1)]]

/-- Python subscripting `value[key]` for a string key: a dict yields the
entry or raises `KeyError`; a list raises `TypeError`; anything else is
not subscriptable. -/
def Json.getKey : Json → String → Except PyErr Json
  | .obj fields, key =>
    match fields.lookup key with
    | some v => .ok v
    | none => .error (.keyError key)
  | .arr _, _ => .error (.typeError "list indices must be integers or slices, not str")
  | _, _ => .error (.typeError "object is not subscriptable")

/-- Python subscripting `value[i]` for an integer index: a list yields
the element or raises `IndexError`; a dict raises `KeyError`; anything
else is not subscriptable. -/
def Json.getIdx : Json → Nat → Except PyErr Json
  | .arr elems, i =>
    match elems.get? i with
    | some v => .ok v
    | none => .error .indexError
  | .obj _, _ => .error (.keyError "0")
  | _, _ => .error (.typeError "object is not subscriptable")

/-- `content = data["choices"][0]["message"]["content"]` (main.py
line 162 and line 242). -/
def extract_content (data : Json) : Except PyErr Json :=
  (((data.getKey "choices").bind fun cs => cs.getIdx 0).bind
    fun choice => choice.getKey "message").bind
    fun msg => msg.getKey "content"

/-- `json.loads(content)`: requires the extracted content to be a JSON
string; the stdlib parser oracle `loads` returns `none` exactly when
`json.JSONDecodeError` is raised. -/
def loadsContent (loads : String → Option Json) (content : Json) : Except PyErr Json :=
  match content with
  | .str s =>
    match loads s with
    | some j => .ok j
    | none => .error .jsonDecodeError
  | _ => .error (.typeError "the JSON object must be str, bytes or bytearray")

/-- The shared tail of both endpoints' try blocks:
`result = json.loads(data["choices"][0]["message"]["content"])` followed
by `result.get(key, [])` (main.py lines 162-166 and 242-246).
`.get` on a non-dict raises `AttributeError`. -/
def content_get (callResult : Except PyErr Json) (loads : String → Option Json)
    (key : String) : Except PyErr Json :=
  ((callResult.bind fun data => extract_content data).bind
    fun content => loadsContent loads content).bind
    fun result =>
      match result with
      | .obj fields => .ok ((fields.lookup key).getD (.arr []))
      | _ => .error (.attributeError "object has no attribute get")

/-- The try block of `analyze_text` after the call (main.py lines
159-169): extract `found`, then `return regex_results + mistral_findings`
(`+` on a list and a non-list raises `TypeError`). -/
def text_try_body (callResult : Except PyErr Json) (loads : String → Option Json)
    (regex_results : List Json) : Except PyErr (List Json) :=
  (content_get callResult loads "found").bind fun found =>
    match found with
    | .arr xs => .ok (regex_results ++ xs)
    | _ => .error (.typeError "can only concatenate list (not other types) to list")

/-- What `/api/analyze` hands back to the transport layer: a JSON array
of findings, or a raised `HTTPException(status_code, detail)`. -/
inductive TextOutcome where
  | findings (results : List Json) : TextOutcome
  | httpException (status : Nat) (detail : String) : TextOutcome

/-- Observable behaviour of one `analyze_text` request: the payloads
posted to the provider, the backoff sleeps performed, and the
response/exception. -/
structure TextAnalysis where
  sentPayloads : List MistralPayload
  sleeps : List Nat
  outcome : TextOutcome

/-- The payload built by `analyze_text` (main.py lines 124, 150-158);
the user message carries `safe_text = request.text[:15000]`. -/
def text_payload (request : AnalyzeRequest) : MistralPayload :=
  { model := MODEL
    messages := [⟨"system", system_prompt⟩, ⟨"user", request.text.take 15000⟩]
    responseFormat := "json_object"
    temperature := 1/10 }

/-- `analyze_text` (main.py lines 84-176).  Absent/empty key: return the
mock list (after a simulated 1s delay) without any scan or provider
call.  Otherwise: regex-scan the full text, post the truncated payload
through the retry executor, parse, merge; `httpx.HTTPStatusError`
becomes `HTTPException(502, ...)` with a fixed detail, any other
exception becomes `HTTPException(500, str(e))`. -/
def analyze_text (apiKey : Option String)
    (finditer : String → String → List String) (loads : String → Option Json)
    (provider : Nat → ProviderResp) (request : AnalyzeRequest) : TextAnalysis :=
  if strTruthy apiKey = false then
    ⟨[], [], .findings mock_results⟩
  else
    let regex_results := regexScan finditer request.text
    let call := call_mistral_with_retry provider (text_payload request) 30
    let outcome : TextOutcome :=
      match text_try_body call.result loads regex_results with
      | .ok merged => .findings merged
      | .error (.httpStatusError _ _) =>
        .httpException 502 "Error communicating with AI provider. Please try again."
      | .error e => .httpException 500 (pyStr e)
    ⟨call.sentPayloads, call.sleeps, outcome⟩

/-- Request body of `POST /api/analyze-image` (main.py lines 178-180). -/
structure AnalyzeImageRequest where
  image : String
  pageNum : Int

/-- `VISION_MODEL = "pixtral-12b-2409"` (main.py line 188). -/
def VISION_MODEL : String := "pixtral-12b-2409"

/-- The vision system prompt of `/api/analyze-image` (main.py lines
190-223). -/
def vision_system_prompt : String :=
  "\n    You are a document analysis AI specialized in detecting handwritten signatures.\n    \n    Analyze this document image and find ALL handwritten signatures and initials (parafen).\n    \n    COORDINATE SYSTEM:\n    - Use normalized coordinates from 0 to 1000\n    - Origin (0, 0) is at TOP-LEFT corner of the image\n    - X increases to the right, Y increases downward\n    - xmin, ymin = top-left corner of signature box\n    - xmax, ymax = bottom-right corner of signature box\n    \n    Return a JSON object:\n    \x7b\"signatures\": [[xmin, ymin, xmax, ymax, confidence], ...]\x7d\n    \n    Where:\n    - xmin, ymin, xmax, ymax: Integers between 0 and 1000\n    - confidence: Integer between 0 and 100\n    \n    DETECT:\n    - Handwritten signatures (cursive writing, personal marks)\n    - Initials/parafen (short handwritten marks like \"JJ\" or scribbles)\n    - Handwritten dates near signatures\n    \n    IGNORE:\n    - Printed text, logos, stamps\n    - Small dots, specks, noise\n    - Lines, boxes, or decorative elements\n    \n    Only include signatures with confidence >= 60.\n    If no signatures found, return \x7b\"signatures\": []\x7d.\n    \n    ONLY output valid JSON.\n    "

/-- The chat-completion payload built by `analyze_image` (main.py lines
227-240): one user message whose content holds the fixed text prompt
and the request's base64 image URL. -/
structure VisionPayload where
  model : String
  textContent : String
  imageUrl : String
  responseFormat : String
  temperature : ℚ

/-- The payload of `/api/analyze-image` for a given request. -/
def image_payload (request : AnalyzeImageRequest) : VisionPayload :=
  { model := VISION_MODEL
    textContent := vision_system_prompt
    imageUrl := request.image
    responseFormat := "json_object"
    temperature := 1/10 }

/-- What `/api/analyze-image` hands back to the transport layer: a JSON
value (`result.get("signatures", [])`, returned as-is), or a raised
`HTTPException`. -/
inductive ImageOutcome where
  | result (value : Json) : ImageOutcome
  | httpException (status : Nat) (detail : String) : ImageOutcome

/-- Observable behaviour of one `analyze_image` request. -/
structure ImageAnalysis where
  sentPayloads : List VisionPayload
  sleeps : List Nat
  outcome : ImageOutcome

/-- `analyze_image` (main.py lines 182-251).  Missing/empty key: raise
`HTTPException(500, "Mistral API Key not configured.")` (outside the
try block).  Otherwise call the provider through the retry executor
with a 60s timeout and return `result.get("signatures", [])`; **any**
exception inside the try block is caught by `except Exception` and
converted to an empty list. -/
def analyze_image (apiKey : Option String) (loads : String → Option Json)
    (provider : Nat → ProviderResp) (request : AnalyzeImageRequest) : ImageAnalysis :=
  if strTruthy apiKey = false then
    ⟨[], [], .httpException 500 "Mistral API Key not configured."⟩
  else
    let call := call_mistral_with_retry provider (image_payload request) 60
    let outcome : ImageOutcome :=
      match content_get call.result loads "signatures" with
      | .ok v => .result v
      | .error _ => .result (.arr [])
    ⟨call.sentPayloads, call.sleeps, outcome⟩

/-- A provider data value of the expected chat-completion shape, used
to exercise the success paths on concrete inputs. -/
def sampleData : Json :=
  .obj [("choices", .arr [.obj [("message", .obj [("content", .str "antwoord")])]])]

/-- A 15,001-character text, exceeding the truncation limit. -/
def longText : String := ⟨List.replicate 15001 'a'⟩

/-- The JSON oracle of the success-path fixtures: the provider content
"antwoord" parses to an object whose `found` array holds one email
finding. -/
def sampleLoads : String → Option Json := fun s =>
  if s = "antwoord" then
    some (.obj [("found", .arr
      [.obj [("type", .str "email"), ("value", .str "a@b.nl"), ("confidence", .num (9/10))]])])
  else none

/-- The regex oracle of the success-path fixtures: the first signal
pattern matches "De heer" in the sample text. -/
def sampleFinditer : String → String → List String := fun pattern text =>
  if pattern = "\\b(de\\s+heer)\\b" ∧ text = "De heer Jansen" then ["De heer"] else []

/-- The JSON oracle of the missing-`found`-key fixture: every content
string parses to the empty JSON object. -/
def emptyObjLoads : String → Option Json := fun _ => some (.obj [])

example :
    call_mistral_with_retry (fun _ => .httpStatus 429 "rate limited") (0 : Nat) 30 =
      ⟨[0, 0, 0], [1, 2], .error (.httpStatusError 429 "rate limited")⟩ := rfl

example :
    call_mistral_with_retry (fun _ => .httpStatus 500 "boom") (0 : Nat) 30 =
      ⟨[0], [], .error (.httpStatusError 500 "boom")⟩ := rfl

example :
    call_mistral_with_retry (fun _ => .timeout) (0 : Nat) 30 =
      ⟨[0, 0, 0], [1, 2], .error .timeoutException⟩ := rfl

/-- Every payload the retry loop posts is the payload it was given. -/
theorem callMistralGo_sentPayloads {β : Type} (provider : Nat → ProviderResp) (payload : β) :
    ∀ (fuel attempt : Nat) (lastError : Option PyErr),
      ∀ p ∈ (callMistralGo provider payload attempt fuel lastError).sentPayloads,
        p = payload := by
  intro fuel
  induction fuel with
  | zero =>
    intro attempt lastError p hp
    simp [callMistralGo] at hp
  | succ n ih =>
    intro attempt lastError p hp
    rw [callMistralGo] at hp
    cases h : provider attempt with
    | ok data =>
      rw [h] at hp
      simpa using hp
    | httpStatus status body =>
      rw [h] at hp
      dsimp only at hp
      by_cases hc : status = 429 ∧ attempt < MAX_RETRIES - 1
      · rw [if_pos hc] at hp
        rcases List.mem_cons.mp hp with hp | hp
        · exact hp
        · exact ih (attempt + 1) (some (.httpStatusError status body)) p hp
      · rw [if_neg hc] at hp
        simpa using hp
    | timeout =>
      rw [h] at hp
      dsimp only at hp
      by_cases hc : attempt < MAX_RETRIES - 1
      · rw [if_pos hc] at hp
        rcases List.mem_cons.mp hp with hp | hp
        · exact hp
        · exact ih (attempt + 1) (some .timeoutException) p hp
      · rw [if_neg hc] at hp
        simpa using hp

/-- Every payload `call_mistral_with_retry` posts is the payload it was
given: the retries reuse the identical payload. -/
theorem call_mistral_sentPayloads {β : Type} (provider : Nat → ProviderResp) (payload : β)
    (timeout : ℚ) :
    ∀ p ∈ (call_mistral_with_retry provider payload timeout).sentPayloads, p = payload :=
  callMistralGo_sentPayloads provider payload MAX_RETRIES 0 none

/-- A raised exception passes through the text try-block unchanged. -/
theorem text_try_body_error (e : PyErr) (loads : String → Option Json)
    (regex_results : List Json) :
    text_try_body (.error e) loads regex_results = .error e := rfl

/-- If the text try-block returns a list, that list is the regex
findings followed by the parsed `found` array. -/
theorem text_try_body_ok (callResult : Except PyErr Json) (loads : String → Option Json)
    (regex_results merged : List Json)
    (h : text_try_body callResult loads regex_results = .ok merged) :
    ∃ xs, content_get callResult loads "found" = .ok (.arr xs) ∧
      merged = regex_results ++ xs := by
  unfold text_try_body at h
  cases hg : content_get callResult loads "found" with
  | error e =>
    rw [hg] at h
    simp [Except.bind] at h
  | ok found =>
    rw [hg] at h
    cases found with
    | arr xs =>
      refine ⟨xs, rfl, ?_⟩
      simp [Except.bind] at h
      exact h.symm
    | null => simp [Except.bind] at h
    | bool b => simp [Except.bind] at h
    | num q => simp [Except.bind] at h
    | str s => simp [Except.bind] at h
    | obj fields => simp [Except.bind] at h

/-- If `analyze_text` (with a configured key) answers with a findings
list, that list decomposes as the regex scan of the **full** request
text followed by the provider-sourced `found` array. -/
theorem analyze_text_findings_decomp (apiKey : Option String)
    (finditer : String → String → List String) (loads : String → Option Json)
    (provider : Nat → ProviderResp) (request : AnalyzeRequest) (results : List Json)
    (hkey : strTruthy apiKey = true)
    (hout : (analyze_text apiKey finditer loads provider request).outcome =
      .findings results) :
    ∃ xs,
      content_get (call_mistral_with_retry provider (text_payload request) 30).result
        loads "found" = .ok (.arr xs) ∧
      results = regexScan finditer request.text ++ xs := by
  unfold analyze_text at hout
  rw [hkey] at hout
  simp only [Bool.true_eq_false, if_false] at hout
  cases htb : text_try_body
      (call_mistral_with_retry provider (text_payload request) 30).result loads
      (regexScan finditer request.text) with
  | ok merged =>
    rw [htb] at hout
    simp only [TextOutcome.findings.injEq] at hout
    obtain ⟨xs, hget, hdec⟩ := text_try_body_ok _ _ _ _ htb
    exact ⟨xs, hget, hout ▸ hdec⟩
  | error e =>
    rw [htb] at hout
    cases e <;> simp at hout


/-- C1: for a provider that returns HTTP 429 on every call,
`call_mistral_with_retry` makes exactly `MAX_RETRIES = 3` attempts with
the identical payload and then fails by raising the last 429 error —
but it sleeps only the first two scheduled delays `[1, 2]`, not
`[1, 2, 4]`: with 3 attempts there are only 2 between-attempt waits,
and `RETRY_DELAYS[2] = 4` is never slept. -/
theorem C1_retry_exhaustion {β : Type} (provider : Nat → ProviderResp) (payload : β)
    (timeout : ℚ) (bodies : Nat → String)
    (h : ∀ n, provider n = .httpStatus 429 (bodies n)) :
    call_mistral_with_retry provider payload timeout =
      ⟨[payload, payload, payload], [1, 2], .error (.httpStatusError 429 (bodies 2))⟩ := by
  simp [call_mistral_with_retry, callMistralGo, h, MAX_RETRIES, RETRY_DELAYS]

/-- C1 witness: the amended exhaustion theorem at a concrete always-429
provider. -/
theorem C1_retry_exhaustion_witness :
    (∀ n, (fun _ : Nat => ProviderResp.httpStatus 429 "rate limited") n =
      ProviderResp.httpStatus 429 ((fun _ : Nat => "rate limited") n)) ∧
    call_mistral_with_retry (fun _ => ProviderResp.httpStatus 429 "rate limited") (0 : Nat) 30 =
      ⟨[0, 0, 0], [1, 2], .error (.httpStatusError 429 "rate limited")⟩ :=
  ⟨fun _ => rfl,
   C1_retry_exhaustion (fun _ => ProviderResp.httpStatus 429 "rate limited") 0 30
     (fun _ => "rate limited") (fun _ => rfl)⟩

/-- C1 counterexample: with the always-429 provider the executor does
make 3 attempts, but the delays actually slept are `[1, 2]`, not the
claimed `[1, 2, 4]`. -/
theorem C1_counterexample :
    (call_mistral_with_retry (fun _ => ProviderResp.httpStatus 429 "rate limited")
        (text_payload ⟨"tekst"⟩) 30).sentPayloads.length = MAX_RETRIES ∧
    (call_mistral_with_retry (fun _ => ProviderResp.httpStatus 429 "rate limited")
        (text_payload ⟨"tekst"⟩) 30).sleeps = [1, 2] ∧
    (call_mistral_with_retry (fun _ => ProviderResp.httpStatus 429 "rate limited")
        (text_payload ⟨"tekst"⟩) 30).sleeps ≠ [1, 2, 4] := by
  refine ⟨rfl, rfl, ?_⟩
  intro hcontra
  rw [show (call_mistral_with_retry (fun _ => ProviderResp.httpStatus 429 "rate limited")
      (text_payload ⟨"tekst"⟩) 30).sleeps = [1, 2] from rfl] at hcontra
  simp at hcontra

/-- C7: a first-attempt non-429 HTTP error makes the executor fail
immediately: exactly one call, no sleeps, the error re-raised. -/
theorem C7_short_circuit {β : Type} (provider : Nat → ProviderResp) (payload : β)
    (timeout : ℚ) (status : Nat) (body : String)
    (h0 : provider 0 = .httpStatus status body) (hs : status ≠ 429) :
    call_mistral_with_retry provider payload timeout =
      ⟨[payload], [], .error (.httpStatusError status body)⟩ := by
  simp [call_mistral_with_retry, callMistralGo, h0, hs]

/-- C7 witness: the short-circuit theorem at a concrete 500-on-first-
attempt provider. -/
theorem C7_short_circuit_witness :
    (fun _ : Nat => ProviderResp.httpStatus 500 "Internal Server Error") 0 =
      ProviderResp.httpStatus 500 "Internal Server Error" ∧
    (500 : Nat) ≠ 429 ∧
    call_mistral_with_retry (fun _ => ProviderResp.httpStatus 500 "Internal Server Error")
        (0 : Nat) 30 =
      ⟨[0], [], .error (.httpStatusError 500 "Internal Server Error")⟩ :=
  ⟨rfl, by decide,
   C7_short_circuit (fun _ => ProviderResp.httpStatus 500 "Internal Server Error") 0 30
     500 "Internal Server Error" rfl (by decide)⟩

/-- C2 counterexample: the claim lumps timeout exhaustion together with
rate-limit exhaustion and generic provider errors, but
`httpx.TimeoutException` is not an `httpx.HTTPStatusError`: it falls
through to the generic handler and surfaces as a 500 with the
exception's own message, while 429 exhaustion surfaces as the 502
"upstream AI provider unavailable" condition. -/
theorem C2_counterexample :
    (analyze_text (some "sleutel") (fun _ _ => []) (fun _ => none)
        (fun _ => .timeout) ⟨"tekst"⟩).outcome =
      .httpException 500 (pyStr .timeoutException) ∧
    (analyze_text (some "sleutel") (fun _ _ => []) (fun _ => none)
        (fun _ => .httpStatus 429 "rate limited") ⟨"tekst"⟩).outcome =
      .httpException 502 "Error communicating with AI provider. Please try again." ∧
    (analyze_text (some "sleutel") (fun _ _ => []) (fun _ => none)
        (fun _ => .timeout) ⟨"tekst"⟩).outcome ≠
    (analyze_text (some "sleutel") (fun _ _ => []) (fun _ => none)
        (fun _ => .httpStatus 429 "rate limited") ⟨"tekst"⟩).outcome := by
  refine ⟨rfl, rfl, ?_⟩
  intro hcontra
  rw [show (analyze_text (some "sleutel") (fun _ _ => []) (fun _ => none)
        (fun _ => .timeout) ⟨"tekst"⟩).outcome =
      .httpException 500 (pyStr .timeoutException) from rfl,
    show (analyze_text (some "sleutel") (fun _ _ => []) (fun _ => none)
        (fun _ => .httpStatus 429 "rate limited") ⟨"tekst"⟩).outcome =
      .httpException 502 "Error communicating with AI provider. Please try again." from rfl]
    at hcontra
  simp only [TextOutcome.httpException.injEq] at hcontra
  omega

/-- C2 (amended): when the provider call raises, `analyze_text` maps an
`httpx.HTTPStatusError` (429 exhaustion or any generic non-2xx error)
to the single fixed 502 "Error communicating with AI provider"
condition — never echoing the provider's error body — while a raised
`httpx.TimeoutException` instead surfaces as a 500 whose detail is the
exception's own message, which likewise never contains the provider's
error body. -/
theorem C2_error_propagation (apiKey : Option String)
    (finditer : String → String → List String) (loads : String → Option Json)
    (provider : Nat → ProviderResp) (request : AnalyzeRequest) (e : PyErr)
    (hkey : strTruthy apiKey = true)
    (h : (call_mistral_with_retry provider (text_payload request) 30).result = .error e) :
    (analyze_text apiKey finditer loads provider request).outcome =
      match e with
      | .httpStatusError _ _ =>
        .httpException 502 "Error communicating with AI provider. Please try again."
      | _ => .httpException 500 (pyStr e) := by
  have hbody : text_try_body
      (call_mistral_with_retry provider (text_payload request) 30).result loads
      (regexScan finditer request.text) = .error e := by
    rw [h]
    exact text_try_body_error e loads _
  simp only [analyze_text, hkey, Bool.true_eq_false, if_false, hbody]
  cases e <;> rfl

/-- C2 witness: the amended propagation theorem at a concrete provider
that times out on every attempt. -/
theorem C2_error_propagation_witness :
    strTruthy (some "sleutel") = true ∧
    (call_mistral_with_retry (fun _ => ProviderResp.timeout)
        (text_payload ⟨"tekst"⟩) 30).result = .error .timeoutException ∧
    (analyze_text (some "sleutel") (fun _ _ => []) (fun _ => none)
        (fun _ => .timeout) ⟨"tekst"⟩).outcome =
      .httpException 500 (pyStr .timeoutException) :=
  ⟨rfl, rfl,
   C2_error_propagation (some "sleutel") (fun _ _ => []) (fun _ => none)
     (fun _ => .timeout) ⟨"tekst"⟩ .timeoutException rfl rfl⟩

/-- C5: with an absent (or empty, hence falsy) credential,
`analyze_text` returns the fixed 6-element mock list whatever the text,
regex oracle, JSON oracle and provider are, posts no payload and sleeps
no backoff delay. -/
theorem C5_mock_mode (apiKey : Option String)
    (finditer : String → String → List String) (loads : String → Option Json)
    (provider : Nat → ProviderResp) (request : AnalyzeRequest)
    (hkey : strTruthy apiKey = false) :
    analyze_text apiKey finditer loads provider request =
      ⟨[], [], .findings mock_results⟩ ∧
    mock_results.length = 6 := by
  refine ⟨?_, rfl⟩
  simp only [analyze_text, hkey, if_pos]

/-- C5 witness: the mock-mode theorem with no key. -/
theorem C5_mock_mode_witness :
    strTruthy none = false ∧
    (analyze_text none (fun _ _ => []) (fun _ => none)
        (fun _ => .timeout) ⟨"tekst"⟩ =
      ⟨[], [], .findings mock_results⟩ ∧
    mock_results.length = 6) :=
  ⟨rfl,
   C5_mock_mode none (fun _ _ => []) (fun _ => none) (fun _ => .timeout) ⟨"tekst"⟩ rfl⟩

/-- C9: `analyze_image` never reads `pageNum`: two requests differing
only in `pageNum` produce identical behaviour (same payloads, sleeps
and outcome), for every key, JSON oracle and provider. -/
theorem C9_pageNum_independence (apiKey : Option String)
    (loads : String → Option Json) (provider : Nat → ProviderResp)
    (image : String) (pageNum1 pageNum2 : Int) :
    analyze_image apiKey loads provider ⟨image, pageNum1⟩ =
      analyze_image apiKey loads provider ⟨image, pageNum2⟩ := rfl

/-- C10: the canned mock list has element-wise identical IBAN findings
at (1-indexed) positions 3 and 4, and its remaining 5 findings are
pairwise distinct, so the 6-element list holds only 5 distinct
findings. -/
theorem C10_mock_duplicate :
    mock_results.get? 2 = mock_results.get? 3 ∧
    mock_results.get? 2 = some (.obj
      [("type", .str "iban"), ("value", .str "NL99BANK0123456789"),
       ("confidence", .num (98/100))]) ∧
    mock_results.length = 6 ∧
    (mock_results.eraseIdx 3).length = 5 ∧
    List.Pairwise (· ≠ ·) (mock_results.eraseIdx 3) := by
  refine ⟨rfl, rfl, rfl, rfl, ?_⟩
  simp [mock_results, List.eraseIdx]

/-- With a configured key, the payloads `analyze_text` posts are the
payloads of its one retry-executor run. -/
theorem analyze_text_sentPayloads (apiKey : Option String)
    (finditer : String → String → List String) (loads : String → Option Json)
    (provider : Nat → ProviderResp) (request : AnalyzeRequest)
    (hkey : strTruthy apiKey = true) :
    (analyze_text apiKey finditer loads provider request).sentPayloads =
      (call_mistral_with_retry provider (text_payload request) 30).sentPayloads := by
  simp only [analyze_text, hkey, Bool.true_eq_false, if_false]

/-- C3: for text longer than 15,000 characters, every payload posted to
the provider carries only the 15,000-character prefix as the user
message (a strict truncation), while the regex scan feeding the merged
result is taken over the full original text. -/
theorem C3_truncation (apiKey : Option String) (finditer : String → String → List String)
    (loads : String → Option Json) (provider : Nat → ProviderResp)
    (request : AnalyzeRequest)
    (hkey : strTruthy apiKey = true) (hlen : 15000 < request.text.length) :
    (request.text.take 15000).length = 15000 ∧
    request.text.take 15000 ≠ request.text ∧
    (∀ p ∈ (analyze_text apiKey finditer loads provider request).sentPayloads,
      p = text_payload request ∧
      p.messages = [⟨"system", system_prompt⟩, ⟨"user", request.text.take 15000⟩]) ∧
    ∀ results,
      (analyze_text apiKey finditer loads provider request).outcome = .findings results →
      ∃ xs, results = regexScan finditer request.text ++ xs := by
  obtain ⟨text⟩ := request
  obtain ⟨chars⟩ := text
  have hlen' : 15000 < chars.length := hlen
  have htake : (String.take ⟨chars⟩ 15000).length = 15000 := by
    rw [String.take_eq]
    show (chars.take 15000).length = 15000
    rw [List.length_take]
    omega
  refine ⟨htake, ?_, ?_, ?_⟩
  · intro hcontra
    have hcl := congrArg String.length hcontra
    rw [htake] at hcl
    have hcl' : 15000 = chars.length := hcl
    omega
  · intro p hp
    rw [analyze_text_sentPayloads _ _ _ _ _ hkey] at hp
    have hpp := call_mistral_sentPayloads provider (text_payload ⟨⟨chars⟩⟩) 30 p hp
    exact ⟨hpp, by rw [hpp]; rfl⟩
  · intro results hout
    obtain ⟨xs, _, hdec⟩ :=
      analyze_text_findings_decomp _ _ _ _ _ _ hkey hout
    exact ⟨xs, hdec⟩


/-- C3 witness: the truncation theorem at a concrete 15,001-character
text. -/
theorem C3_truncation_witness :
    strTruthy (some "sleutel") = true ∧
    15000 < longText.length ∧
    ((longText.take 15000).length = 15000 ∧
     longText.take 15000 ≠ longText ∧
     (∀ p ∈ (analyze_text (some "sleutel") (fun _ _ => []) (fun _ => none)
         (fun _ => .timeout) ⟨longText⟩).sentPayloads,
       p = text_payload ⟨longText⟩ ∧
       p.messages = [⟨"system", system_prompt⟩, ⟨"user", longText.take 15000⟩]) ∧
     ∀ results,
       (analyze_text (some "sleutel") (fun _ _ => []) (fun _ => none)
           (fun _ => .timeout) ⟨longText⟩).outcome = .findings results →
       ∃ xs, results = regexScan (fun _ _ => []) longText ++ xs) := by
  have hlen : 15000 < longText.length := by
    rw [longText, String.length_mk, List.length_replicate]
    omega
  exact ⟨rfl, hlen,
    C3_truncation (some "sleutel") (fun _ _ => []) (fun _ => none)
      (fun _ => .timeout) ⟨longText⟩ rfl hlen⟩

/-- C4: every successful `/api/analyze` response decomposes as the
local regex-scan indicator findings (over the full text, in scan order)
followed by the provider-reported `found` array: every local finding
appears before every provider-sourced finding. -/
theorem C4_merge_order (apiKey : Option String)
    (finditer : String → String → List String) (loads : String → Option Json)
    (provider : Nat → ProviderResp) (request : AnalyzeRequest) (results : List Json)
    (hkey : strTruthy apiKey = true)
    (hout : (analyze_text apiKey finditer loads provider request).outcome =
      .findings results) :
    ∃ xs,
      content_get (call_mistral_with_retry provider (text_payload request) 30).result
        loads "found" = .ok (.arr xs) ∧
      results = regexScan finditer request.text ++ xs :=
  analyze_text_findings_decomp apiKey finditer loads provider request results hkey hout



/-- C4 witness: the merge-order theorem on a concrete successful
analysis with one local and one provider finding. -/
theorem C4_merge_order_witness :
    strTruthy (some "sleutel") = true ∧
    (analyze_text (some "sleutel") sampleFinditer sampleLoads (fun _ => .ok sampleData)
        ⟨"De heer Jansen"⟩).outcome =
      .findings [indicatorFinding "De heer",
        .obj [("type", .str "email"), ("value", .str "a@b.nl"), ("confidence", .num (9/10))]] ∧
    ∃ xs,
      content_get (call_mistral_with_retry (fun _ => .ok sampleData)
          (text_payload ⟨"De heer Jansen"⟩) 30).result sampleLoads "found" = .ok (.arr xs) ∧
      [indicatorFinding "De heer",
        .obj [("type", .str "email"), ("value", .str "a@b.nl"), ("confidence", .num (9/10))]] =
        regexScan sampleFinditer "De heer Jansen" ++ xs :=
  ⟨rfl, rfl,
   C4_merge_order (some "sleutel") sampleFinditer sampleLoads (fun _ => .ok sampleData)
     ⟨"De heer Jansen"⟩ _ rfl rfl⟩

/-- C6: with a configured key, `/api/analyze-image` always returns a
value (it never raises to its caller), and whenever the call/parse
pipeline raises any exception the returned value is the empty array. -/
theorem C6_image_resilience (apiKey : Option String) (loads : String → Option Json)
    (provider : Nat → ProviderResp) (request : AnalyzeImageRequest)
    (hkey : strTruthy apiKey = true) :
    (∃ v, (analyze_image apiKey loads provider request).outcome = .result v) ∧
    ∀ e,
      content_get (call_mistral_with_retry provider (image_payload request) 60).result
        loads "signatures" = .error e →
      (analyze_image apiKey loads provider request).outcome = .result (.arr []) := by
  have hout : (analyze_image apiKey loads provider request).outcome =
      match content_get (call_mistral_with_retry provider (image_payload request) 60).result
        loads "signatures" with
      | .ok v => .result v
      | .error _ => .result (.arr []) := by
    simp only [analyze_image, hkey, Bool.true_eq_false, if_false]
  constructor
  · cases hg : content_get (call_mistral_with_retry provider (image_payload request) 60).result
        loads "signatures" with
    | ok v => exact ⟨v, by rw [hout, hg]⟩
    | error e => exact ⟨.arr [], by rw [hout, hg]⟩
  · intro e he
    rw [hout, he]

/-- C6 witness: the resilience theorem at a concrete provider that
fails with a 500 on every attempt. -/
theorem C6_image_resilience_witness :
    strTruthy (some "sleutel") = true ∧
    content_get (call_mistral_with_retry (fun _ => ProviderResp.httpStatus 500 "kapot")
        (image_payload ⟨"beeld", 1⟩) 60).result (fun _ => none) "signatures" =
      .error (.httpStatusError 500 "kapot") ∧
    (∃ v, (analyze_image (some "sleutel") (fun _ => none)
        (fun _ => .httpStatus 500 "kapot") ⟨"beeld", 1⟩).outcome = .result v) ∧
    (analyze_image (some "sleutel") (fun _ => none)
        (fun _ => .httpStatus 500 "kapot") ⟨"beeld", 1⟩).outcome = .result (.arr []) :=
  ⟨rfl, rfl,
   (C6_image_resilience (some "sleutel") (fun _ => none)
     (fun _ => .httpStatus 500 "kapot") ⟨"beeld", 1⟩ rfl).1,
   (C6_image_resilience (some "sleutel") (fun _ => none)
     (fun _ => .httpStatus 500 "kapot") ⟨"beeld", 1⟩ rfl).2
     (.httpStatusError 500 "kapot") rfl⟩

/-- C8: when the provider call succeeds and its inner content parses as
a JSON object with no `found` key, `.get("found", [])` yields the empty
list and `/api/analyze` answers with exactly the local regex findings —
no error is raised. -/
theorem C8_found_key_absent (apiKey : Option String)
    (finditer : String → String → List String) (loads : String → Option Json)
    (provider : Nat → ProviderResp) (request : AnalyzeRequest)
    (data : Json) (s : String) (fields : List (String × Json))
    (hkey : strTruthy apiKey = true)
    (hcall : (call_mistral_with_retry provider (text_payload request) 30).result = .ok data)
    (hcontent : extract_content data = .ok (.str s))
    (hloads : loads s = some (.obj fields))
    (hfound : fields.lookup "found" = none) :
    (analyze_text apiKey finditer loads provider request).outcome =
      .findings (regexScan finditer request.text) := by
  have hget : content_get (call_mistral_with_retry provider (text_payload request) 30).result
      loads "found" = .ok (.arr []) := by
    simp only [content_get, hcall, Except.bind, hcontent, loadsContent, hloads, hfound,
      Option.getD]
  have hbody : text_try_body
      (call_mistral_with_retry provider (text_payload request) 30).result loads
      (regexScan finditer request.text) = .ok (regexScan finditer request.text) := by
    simp only [text_try_body, hget, Except.bind, List.append_nil]
  simp only [analyze_text, hkey, Bool.true_eq_false, if_false, hbody]


/-- C8 witness: the missing-`found`-key theorem on a concrete
successful call whose content parses to `{}`. -/
theorem C8_found_key_absent_witness :
    strTruthy (some "sleutel") = true ∧
    (call_mistral_with_retry (fun _ => ProviderResp.ok sampleData)
        (text_payload ⟨"De heer Jansen"⟩) 30).result = .ok sampleData ∧
    extract_content sampleData = .ok (.str "antwoord") ∧
    emptyObjLoads "antwoord" = some (.obj []) ∧
    List.lookup "found" ([] : List (String × Json)) = none ∧
    (analyze_text (some "sleutel") sampleFinditer emptyObjLoads
        (fun _ => .ok sampleData) ⟨"De heer Jansen"⟩).outcome =
      .findings (regexScan sampleFinditer "De heer Jansen") :=
  ⟨rfl, rfl, rfl, rfl, rfl,
   C8_found_key_absent (some "sleutel") sampleFinditer emptyObjLoads
     (fun _ => .ok sampleData) ⟨"De heer Jansen"⟩ sampleData "antwoord" []
     rfl rfl rfl rfl rfl⟩
